import Mathlib

/-!
Shallow embedding of the polygon-drawing component `PolygonDrawer`
(src/src/App.tsx).  The React state hooks of the component become the fields of
`AppState`; each event handler becomes a pure function `AppState → ... →
AppState`.  Pointer coordinates are modelled as rationals.  The source
compares `Math.sqrt((x-px)**2 + (y-py)**2) < radius`; since both sides are
nonnegative reals this is equivalent to comparing squared distance with
`radius^2`, which is how the proximity tests are embedded here.
-/

namespace PolygonDrawer

/-- `interface IShape`: points flattened as `[x0, y0, x1, y1, ...]`,
a closed flag, and an optional fill color (`null` = no fill). -/
structure IShape where
  points : List ℚ
  closed : Bool
  fill : Option String
deriving Repr, DecidableEq

/-- The state hooks of the component, in source order: `shapes`, `currentPoints`,
`isDrawing`, `fillColor`, `selectedPointIndex`, `isClosed`, `imageUrl`. -/
structure AppState where
  shapes : List IShape
  currentPoints : List ℚ
  isDrawing : Bool
  fillColor : Option String
  selectedPointIndex : Option ℕ
  isClosed : Bool
  imageUrl : String
deriving Repr, DecidableEq

/-- `const radius = 10`. -/
def radius : ℚ := 10

/-- Initial state: all hooks at their `useState` initial values. -/
def initialState : AppState :=
  { shapes := []
    currentPoints := []
    isDrawing := false
    fillColor := none
    selectedPointIndex := none
    isClosed := false
    imageUrl := "" }

/-- `isCloseToPoint` body as a function of the point list: the source loop
walks `currentPoints` two entries at a time and returns true when some
vertex is at distance `< radius` (squared distance `< radius^2`). -/
def isCloseToPointAux (pts : List ℚ) (x y : ℚ) : Bool :=
  match pts with
  | px :: py :: rest =>
      if (x - px) ^ 2 + (y - py) ^ 2 < radius ^ 2 then true
      else isCloseToPointAux rest x y
  | _ => false

/-- `isCloseToPoint(x, y)` reads `currentPoints` from the component state. -/
def isCloseToPoint (s : AppState) (x y : ℚ) : Bool :=
  isCloseToPointAux s.currentPoints x y

/-- `isCloseToFirstPoint(x, y)`: false when `currentPoints.length < 2`,
else compares the click with the first stored vertex. -/
def isCloseToFirstPointAux (pts : List ℚ) (x y : ℚ) : Bool :=
  match pts with
  | firstX :: firstY :: _ =>
      (x - firstX) ^ 2 + (y - firstY) ^ 2 < radius ^ 2
  | _ => false

/-- `isCloseToFirstPoint(x, y)` on the component state. -/
def isCloseToFirstPoint (s : AppState) (x y : ℚ) : Bool :=
  isCloseToFirstPointAux s.currentPoints x y

/-- `handleClick`: ignore when a point is selected; close the draft when the
click is near the first vertex; drop the click when near an existing
vertex; otherwise append the clicked coordinates to `currentPoints`. -/
def handleClick (s : AppState) (x y : ℚ) : AppState :=
  if s.selectedPointIndex ≠ none then s
  else if isCloseToFirstPoint s x y then { s with isClosed := true }
  else if isCloseToPoint s x y then s
  else { s with currentPoints := s.currentPoints ++ [x, y] }

/-- The stage wires `onMouseDown={isDrawing ? handleClick : undefined}`:
a canvas click reaches `handleClick` only while `isDrawing` is set. -/
def onMouseDown (s : AppState) (x y : ℚ) : AppState :=
  if s.isDrawing then handleClick s x y else s

/-- `finishDrawing`: when `currentPoints.length > 2`, append a new shape
built from the draft snapshot; in every case clear the draft and reset
the `isDrawing` and `isClosed` flags. -/
def finishDrawing (s : AppState) : AppState :=
  let s1 :=
    if s.currentPoints.length > 2 then
      { s with shapes :=
          s.shapes ++ [{ points := s.currentPoints
                         closed := s.isClosed
                         fill := s.fillColor }] }
    else s
  { s1 with currentPoints := [], isDrawing := false, isClosed := false }

/-- `startDrawing`. -/
def startDrawing (s : AppState) : AppState :=
  { s with isDrawing := true
           currentPoints := []
           selectedPointIndex := none
           isClosed := false }

/-- `handlePointDragStart(index)`. -/
def handlePointDragStart (s : AppState) (index : ℕ) : AppState :=
  { s with selectedPointIndex := some index }

/-- `handlePointDragEnd`. -/
def handlePointDragEnd (s : AppState) : AppState :=
  { s with selectedPointIndex := none }

/-- `handlePointDrag(index, e)`: write the drag position into the flat
slots `index*2` and `index*2+1` of a copy of `currentPoints`.  The
renderer creates one handle per vertex, so `index` is always a valid
vertex index (`index*2+1 < currentPoints.length`); `List.set` embeds the
in-range assignment. -/
def handlePointDrag (s : AppState) (index : ℕ) (x y : ℚ) : AppState :=
  { s with currentPoints :=
      (s.currentPoints.set (index * 2) x).set (index * 2 + 1) y }

/-- `clearCurrentPoints`. -/
def clearCurrentPoints (s : AppState) : AppState :=
  { s with currentPoints := [], isDrawing := false, isClosed := false }

/-- `clearShapes`. -/
def clearShapes (s : AppState) : AppState :=
  { s with shapes := [] }

/-- `clearCover`: drops the background image URL (the file-input DOM reset
has no counterpart in the modelled state). -/
def clearCover (s : AppState) : AppState :=
  { s with imageUrl := "" }

/-- `resetImage`: clear the background, all shapes, and the draft. -/
def resetImage (s : AppState) : AppState :=
  { s with imageUrl := ""
           shapes := []
           currentPoints := []
           isDrawing := false
           isClosed := false }

/-- The fill selector: `null` when the chosen value is the string none, else the value itself. -/
def setFillColor (s : AppState) (value : String) : AppState :=
  { s with fillColor := if value = "none" then none else some value }

end PolygonDrawer

namespace PolygonDrawer

/-- Squared distance from the click to each stored vertex, walking the flat
list two entries at a time exactly like the `isCloseToPoint` loop. -/
def vertexSqDists (pts : List ℚ) (x y : ℚ) : List ℚ :=
  match pts with
  | px :: py :: rest => ((x - px) ^ 2 + (y - py) ^ 2) :: vertexSqDists rest x y
  | _ => []

/-- A draft state with the given flat point list, as reached after
`startDrawing` and some clicks: drawing is on, nothing is selected. -/
def demoDraft (pts : List ℚ) : AppState :=
  { initialState with isDrawing := true, currentPoints := pts }

/-- A draft state in the middle of a vertex drag: vertex 0 is selected. -/
def demoSelected : AppState :=
  { initialState with isDrawing := true
                      currentPoints := [0, 0, 50, 0]
                      selectedPointIndex := some 0 }

theorem isCloseToPointAux_eq_false :
    ∀ (pts : List ℚ) (x y : ℚ),
      (∀ d ∈ vertexSqDists pts x y, radius ^ 2 ≤ d) →
      isCloseToPointAux pts x y = false
  | [], _, _, _ => rfl
  | [_], _, _, _ => rfl
  | px :: py :: rest, x, y, h => by
      have h1 : radius ^ 2 ≤ (x - px) ^ 2 + (y - py) ^ 2 :=
        h _ (List.mem_cons_self _ _)
      have h2 : ∀ d ∈ vertexSqDists rest x y, radius ^ 2 ≤ d :=
        fun d hd => h d (List.mem_cons_of_mem _ hd)
      simp only [isCloseToPointAux, if_neg (not_lt.mpr h1)]
      exact isCloseToPointAux_eq_false rest x y h2

theorem isCloseToFirstPointAux_eq_false (pts : List ℚ) (x y : ℚ)
    (h : ∀ d ∈ vertexSqDists pts x y, radius ^ 2 ≤ d) :
    isCloseToFirstPointAux pts x y = false := by
  rcases pts with _ | ⟨px, _ | ⟨py, rest⟩⟩
  · rfl
  · rfl
  · have h1 : radius ^ 2 ≤ (x - px) ^ 2 + (y - py) ^ 2 :=
      h _ (List.mem_cons_self _ _)
    simp [isCloseToFirstPointAux, not_lt.mpr h1]

/-- Claim C1: `finishDrawing` appends exactly one shape, carrying the draft
snapshot (`currentPoints`, `isClosed`, `fillColor`), precisely when the raw
coordinate list is longer than 2; otherwise the finished shapes are
unchanged; in every case the draft is reset to Idle. -/
theorem finishDrawing_spec (s : AppState) :
    (finishDrawing s).shapes =
      (if 2 < s.currentPoints.length then
        s.shapes ++
          [{ points := s.currentPoints, closed := s.isClosed,
             fill := s.fillColor }]
      else s.shapes)
    ∧ (finishDrawing s).currentPoints = []
    ∧ (finishDrawing s).isDrawing = false
    ∧ (finishDrawing s).isClosed = false := by
  simp only [finishDrawing]
  split <;> simp_all

/-- Claim C2: with drawing active, no vertex selected, and a draft holding at
least one vertex, a click whose squared distance to the first vertex is
below `radius^2` sets the closed flag and leaves `currentPoints` as it was. -/
theorem handleClick_closes (s : AppState) (x y px py : ℚ) (rest : List ℚ)
    (hdraw : s.isDrawing = true)
    (hsel : s.selectedPointIndex = none)
    (hpts : s.currentPoints = px :: py :: rest)
    (hnear : (x - px) ^ 2 + (y - py) ^ 2 < radius ^ 2) :
    (onMouseDown s x y).isClosed = true
    ∧ (onMouseDown s x y).currentPoints = s.currentPoints := by
  have hfirst : isCloseToFirstPoint s x y = true := by
    simp [isCloseToFirstPoint, isCloseToFirstPointAux, hpts, hnear]
  simp [onMouseDown, handleClick, hdraw, hsel, hfirst]

/-- Witness for C2: draft `[0, 0, 50, 0]`, click at `(3, 4)` (distance 5 to
the first vertex). -/
theorem handleClick_closes_witness :
    (onMouseDown (demoDraft [0, 0, 50, 0]) 3 4).isClosed = true
    ∧ (onMouseDown (demoDraft [0, 0, 50, 0]) 3 4).currentPoints
        = (demoDraft [0, 0, 50, 0]).currentPoints :=
  handleClick_closes (demoDraft [0, 0, 50, 0]) 3 4 0 0 [50, 0] rfl rfl rfl
    (by norm_num [radius])

/-- Claim C3: the closing check runs before the duplicate check: a click near
the first vertex closes the draft even when it is also near another existing
vertex (here: some later vertex within the radius), instead of being
dropped. -/
theorem handleClick_closePriority (s : AppState) (x y px py : ℚ)
    (rest : List ℚ)
    (hdraw : s.isDrawing = true)
    (hsel : s.selectedPointIndex = none)
    (hpts : s.currentPoints = px :: py :: rest)
    (hnearFirst : (x - px) ^ 2 + (y - py) ^ 2 < radius ^ 2)
    (_hnearOther : ∃ d ∈ vertexSqDists rest x y, d < radius ^ 2) :
    (onMouseDown s x y).isClosed = true
    ∧ (onMouseDown s x y).currentPoints = s.currentPoints := by
  have hfirst : isCloseToFirstPoint s x y = true := by
    simp [isCloseToFirstPoint, isCloseToFirstPointAux, hpts, hnearFirst]
  simp [onMouseDown, handleClick, hdraw, hsel, hfirst]

/-- Witness for C3: draft `[0, 0, 5, 0]`, click at `(3, 0)`: distance 3 to
the first vertex and distance 2 to the second. -/
theorem handleClick_closePriority_witness :
    (onMouseDown (demoDraft [0, 0, 5, 0]) 3 0).isClosed = true
    ∧ (onMouseDown (demoDraft [0, 0, 5, 0]) 3 0).currentPoints
        = (demoDraft [0, 0, 5, 0]).currentPoints :=
  handleClick_closePriority (demoDraft [0, 0, 5, 0]) 3 0 0 0 [5, 0] rfl rfl
    rfl (by norm_num [radius])
    ⟨4, by norm_num [vertexSqDists, radius]⟩

/-- Claim C4: while drawing, a click that `isCloseToPoint` accepts (within the
radius of some existing vertex) never changes the number of stored
coordinates. -/
theorem handleClick_nearVertex_noAdd (s : AppState) (x y : ℚ)
    (hdraw : s.isDrawing = true)
    (hnear : isCloseToPoint s x y = true) :
    (onMouseDown s x y).currentPoints.length = s.currentPoints.length := by
  simp only [onMouseDown, hdraw, if_true, handleClick]
  split_ifs <;> simp_all

/-- Witness for C4: draft `[0, 0, 50, 0]`, click at `(52, 0)` (distance 2 to
the second vertex). -/
theorem handleClick_nearVertex_noAdd_witness :
    (onMouseDown (demoDraft [0, 0, 50, 0]) 52 0).currentPoints.length
      = (demoDraft [0, 0, 50, 0]).currentPoints.length :=
  handleClick_nearVertex_noAdd (demoDraft [0, 0, 50, 0]) 52 0 rfl
    (by norm_num [isCloseToPoint, isCloseToPointAux, demoDraft, initialState,
      radius])

end PolygonDrawer

namespace PolygonDrawer

/-- Claim C5: dragging vertex `i` to `(x, y)` rewrites exactly the flat slots
`2*i` and `2*i+1` of `currentPoints`; length, every other slot, the closed
flag, the finished shapes and the drawing flag are untouched. -/
theorem handlePointDrag_spec (s : AppState) (i : ℕ) (x y : ℚ)
    (h : 2 * i + 1 < s.currentPoints.length) :
    (handlePointDrag s i x y).currentPoints.length = s.currentPoints.length
    ∧ (handlePointDrag s i x y).currentPoints[2 * i]? = some x
    ∧ (handlePointDrag s i x y).currentPoints[2 * i + 1]? = some y
    ∧ (∀ j, j ≠ 2 * i → j ≠ 2 * i + 1 →
        (handlePointDrag s i x y).currentPoints[j]? = s.currentPoints[j]?)
    ∧ (handlePointDrag s i x y).isClosed = s.isClosed
    ∧ (handlePointDrag s i x y).shapes = s.shapes
    ∧ (handlePointDrag s i x y).isDrawing = s.isDrawing := by
  have e : i * 2 = 2 * i := Nat.mul_comm i 2
  simp only [handlePointDrag, e]
  refine ⟨by simp [List.length_set], ?_, ?_, ?_, trivial, trivial, trivial⟩
  · rw [List.getElem?_set_ne (by omega), List.getElem?_set_self (by omega)]
  · rw [List.getElem?_set_self (by simpa [List.length_set] using h)]
  · intro j hj1 hj2
    rw [List.getElem?_set_ne (Ne.symm hj2), List.getElem?_set_ne
      (Ne.symm hj1)]

/-- Witness for C5: draft `[0, 0, 50, 0]`, vertex 1 dragged to `(7, 8)`. -/
theorem handlePointDrag_spec_witness :
    (handlePointDrag (demoDraft [0, 0, 50, 0]) 1 7 8).currentPoints.length
      = (demoDraft [0, 0, 50, 0]).currentPoints.length
    ∧ (handlePointDrag (demoDraft [0, 0, 50, 0]) 1 7 8).currentPoints[2 * 1]?
      = some 7
    ∧ (handlePointDrag (demoDraft [0, 0, 50, 0]) 1 7 8).currentPoints[2 * 1
      + 1]? = some 8
    ∧ (∀ j, j ≠ 2 * 1 → j ≠ 2 * 1 + 1 →
        (handlePointDrag (demoDraft [0, 0, 50, 0]) 1 7 8).currentPoints[j]?
          = (demoDraft [0, 0, 50, 0]).currentPoints[j]?)
    ∧ (handlePointDrag (demoDraft [0, 0, 50, 0]) 1 7 8).isClosed
      = (demoDraft [0, 0, 50, 0]).isClosed
    ∧ (handlePointDrag (demoDraft [0, 0, 50, 0]) 1 7 8).shapes
      = (demoDraft [0, 0, 50, 0]).shapes
    ∧ (handlePointDrag (demoDraft [0, 0, 50, 0]) 1 7 8).isDrawing
      = (demoDraft [0, 0, 50, 0]).isDrawing :=
  handlePointDrag_spec (demoDraft [0, 0, 50, 0]) 1 7 8
    (by simp [demoDraft, initialState])

/-- The even-length invariant of the flattened point representation: the
draft list and every finished shape hold whole `(x, y)` pairs. -/
def evenInv (s : AppState) : Prop :=
  Even s.currentPoints.length ∧ ∀ sh ∈ s.shapes, Even sh.points.length

/-- Claim C6: the initial state satisfies the even-length invariant and every
operation of the component preserves it. -/
theorem evenInv_preserved (s : AppState) (x y : ℚ) (i : ℕ) (c : String)
    (h : evenInv s) :
    evenInv initialState
    ∧ evenInv (startDrawing s)
    ∧ evenInv (onMouseDown s x y)
    ∧ evenInv (handlePointDrag s i x y)
    ∧ evenInv (finishDrawing s)
    ∧ evenInv (clearCurrentPoints s)
    ∧ evenInv (clearShapes s)
    ∧ evenInv (clearCover s)
    ∧ evenInv (resetImage s)
    ∧ evenInv (setFillColor s c)
    ∧ evenInv (handlePointDragStart s i)
    ∧ evenInv (handlePointDragEnd s) := by
  obtain ⟨h1, h2⟩ := h
  refine ⟨by simp [evenInv, initialState], ⟨by simp [startDrawing], ?_⟩,
    ?_, ?_, ?_, ⟨by simp [clearCurrentPoints], ?_⟩,
    ⟨?_, by simp [clearShapes]⟩, ⟨h1, ?_⟩, ⟨by simp [resetImage], ?_⟩,
    ⟨h1, ?_⟩, ⟨h1, ?_⟩, ⟨h1, ?_⟩⟩
  · simpa [startDrawing] using h2
  · constructor
    · simp only [onMouseDown, handleClick]
      split_ifs <;> simp_all [Nat.even_add_one, Nat.even_iff]
    · simp only [onMouseDown, handleClick]
      split_ifs <;> simpa using h2
  · exact ⟨by simpa [handlePointDrag, List.length_set] using h1,
      by simpa [handlePointDrag] using h2⟩
  · refine ⟨by simp [finishDrawing], ?_⟩
    simp only [finishDrawing]
    split
    · intro sh hsh
      rcases List.mem_append.mp hsh with hmem | hmem
      · exact h2 sh hmem
      · rcases List.mem_singleton.mp hmem with rfl
        exact h1
    · exact h2
  · simpa [clearCurrentPoints] using h2
  · simpa [clearShapes] using h1
  · simpa [clearCover] using h2
  · simp [resetImage]
  · simpa [setFillColor] using h2
  · simpa [handlePointDragStart] using h2
  · simpa [handlePointDragEnd] using h2

/-- Witness for C6: the invariant instantiated at the initial state with a
sample click, drag index and fill color. -/
theorem evenInv_preserved_witness :
    evenInv initialState
    ∧ evenInv (startDrawing initialState)
    ∧ evenInv (onMouseDown initialState 1 2)
    ∧ evenInv (handlePointDrag initialState 0 1 2)
    ∧ evenInv (finishDrawing initialState)
    ∧ evenInv (clearCurrentPoints initialState)
    ∧ evenInv (clearShapes initialState)
    ∧ evenInv (clearCover initialState)
    ∧ evenInv (resetImage initialState)
    ∧ evenInv (setFillColor initialState "yellow")
    ∧ evenInv (handlePointDragStart initialState 0)
    ∧ evenInv (handlePointDragEnd initialState) :=
  evenInv_preserved initialState 1 2 0 "yellow"
    (by simp [evenInv, initialState])

/-- Claim C7: after `resetImage` the finished shapes are empty, the draft is
empty, the state machine is Idle and there is no background image, whatever
the prior state was. -/
theorem resetImage_spec (s : AppState) :
    (resetImage s).shapes = []
    ∧ (resetImage s).currentPoints = []
    ∧ (resetImage s).isDrawing = false
    ∧ (resetImage s).isClosed = false
    ∧ (resetImage s).imageUrl = "" := by
  simp [resetImage]

end PolygonDrawer

namespace PolygonDrawer

/-- The draft reached by: start drawing, click `(50, 50)`, click `(150, 50)`,
click `(150, 150)`, then click `(55, 52)`, which lies within 10 pixels of
the first vertex `(50, 50)`. -/
def draftSquare : AppState :=
  onMouseDown (onMouseDown (onMouseDown (onMouseDown
    (startDrawing initialState) 50 50) 150 50) 150 150) 55 52

/-- Claim C8: the scenario produces exactly one finished shape with points
`[50, 50, 150, 50, 150, 150]` and `closed = true` (fill `none` when no fill
was chosen), and choosing the fill `lightgreen` before finishing makes the
fill of that shape `lightgreen`. -/
theorem scenario_square :
    (finishDrawing draftSquare).shapes
      = [{ points := [50, 50, 150, 50, 150, 150], closed := true,
           fill := none }]
    ∧ (finishDrawing (setFillColor draftSquare "lightgreen")).shapes
      = [{ points := [50, 50, 150, 50, 150, 150], closed := true,
           fill := some "lightgreen" }] := by
  have hne : ("lightgreen" = "none") = False := by decide
  constructor <;>
    norm_num [draftSquare, finishDrawing, setFillColor, onMouseDown,
      startDrawing, initialState, handleClick, isCloseToFirstPoint,
      isCloseToPoint, isCloseToFirstPointAux, isCloseToPointAux, radius, hne]

/-- Claim C9: while a vertex is selected for dragging, a canvas click leaves
the whole state untouched (no appended point, no closed flag), and
`handlePointDragEnd` clears the selection, re-enabling click-to-add. -/
theorem handleClick_selected_noop (s : AppState) (i : ℕ) (x y : ℚ)
    (hsel : s.selectedPointIndex = some i) :
    onMouseDown s x y = s
    ∧ (handlePointDragEnd s).selectedPointIndex = none := by
  refine ⟨?_, rfl⟩
  simp [onMouseDown, handleClick, hsel]

/-- Witness for C9: vertex 0 selected, click far from everything. -/
theorem handleClick_selected_noop_witness :
    onMouseDown demoSelected 200 200 = demoSelected
    ∧ (handlePointDragEnd demoSelected).selectedPointIndex = none :=
  handleClick_selected_noop demoSelected 0 200 200 rfl

/-- Claim C10: the proximity tests are strict: a click at distance exactly
`radius` from every existing vertex (so also from the first) neither closes
the shape nor is suppressed — it appends a new vertex. -/
theorem handleClick_boundary_adds (s : AppState) (x y : ℚ)
    (hdraw : s.isDrawing = true)
    (hsel : s.selectedPointIndex = none)
    (hdist : ∀ d ∈ vertexSqDists s.currentPoints x y, d = radius ^ 2) :
    (onMouseDown s x y).currentPoints = s.currentPoints ++ [x, y]
    ∧ (onMouseDown s x y).isClosed = s.isClosed := by
  have hge : ∀ d ∈ vertexSqDists s.currentPoints x y, radius ^ 2 ≤ d :=
    fun d hd => le_of_eq (hdist d hd).symm
  have hcp : isCloseToPoint s x y = false :=
    isCloseToPointAux_eq_false s.currentPoints x y hge
  have hcf : isCloseToFirstPoint s x y = false :=
    isCloseToFirstPointAux_eq_false s.currentPoints x y hge
  simp [onMouseDown, handleClick, hdraw, hsel, hcf, hcp]

/-- Witness for C10: draft `[0, 0]`, click at `(6, 8)` — distance exactly 10
from the single vertex; the click is appended and the closed flag is kept. -/
theorem handleClick_boundary_adds_witness :
    (onMouseDown (demoDraft [0, 0]) 6 8).currentPoints
      = (demoDraft [0, 0]).currentPoints ++ [6, 8]
    ∧ (onMouseDown (demoDraft [0, 0]) 6 8).isClosed
      = (demoDraft [0, 0]).isClosed :=
  handleClick_boundary_adds (demoDraft [0, 0]) 6 8 rfl rfl
    (by norm_num [demoDraft, initialState, vertexSqDists, radius])

end PolygonDrawer
